import Mathlib

/-!
Verification of the trajectory-driven level generation and the
collision/scoring state machine of the collapsable-maths-towers game.

The embedding follows `src/main.ts` (the current `MainScene`), `src/config.ts`,
`src/physicsSettings.ts`, `src/levels.ts`, `src/towers.ts` and
`src/towerBalls.ts`.  JavaScript numbers are modelled as exact rationals for
the game-state bookkeeping (only `+ - * /`, comparisons and `Math.abs` /
`Math.hypot` occur there) and as real numbers for the layout mathematics
(which uses `Math.sin`, `Math.cos` and `Math.sqrt`).  `ℝ` has no `NaN` or
`Infinity`, so the source's `isFinite` guards are identically true in the
model.  The physics engine (Rapier) and the maths-problem package
`maths-game-problem-generator` are external collaborators; their
`contactPair`, `checkAnswer` and `generateProblem` entry points are modelled
as oracle functions supplied to every pass that consults them.
-/

namespace CollapsableMathsTowers

/-! ## Constants (src/config.ts, src/physicsSettings.ts, src/main.ts) -/

def GRAVITY_MULTIPLIER : ℚ := 30

/-- Source: `physicsSettings.ts`: `GRAVITY_Y = 9.81 * GRAVITY_MULTIPLIER`. -/
def GRAVITY_Y : ℚ := 9.81 * GRAVITY_MULTIPLIER

def PERFECT_SHOT_ANGLE_DEG : ℚ := -55

def PLATFORM_WIDTH : ℚ := 200

def PLATFORM_HEIGHT : ℚ := 10

/-- Source: `config.ts`: `PLATFORM_PARABOLA_Y_OFFSET = PLATFORM_WIDTH / 2`. -/
def PLATFORM_PARABOLA_Y_OFFSET : ℚ := PLATFORM_WIDTH / 2

def FLOOR_Y : ℚ := 800

def CATAPULT_HEIGHT_ABOVE_FLOOR : ℚ := 400

def BALL_STOP_SPEED : ℚ := 0.01

def SIM_STOP_ANGULAR_SPEED : ℚ := 0.00001

def BALL_RESET_DELAY_MS : ℚ := 3000

def BEAVER_DENSITY : ℚ := 0.8

def BEAVER_DENSITY_LEVELS : List ℚ := [BEAVER_DENSITY, 2, 5]

/-- Source: `createPlayerBall`: `const startX = -600`. -/
def CATAPULT_ANCHOR_X : ℚ := -600

/-- Source: `createPlayerBall`: `const startY = FLOOR_Y - CATAPULT_HEIGHT_ABOVE_FLOOR`. -/
def CATAPULT_ANCHOR_Y : ℚ := FLOOR_Y - CATAPULT_HEIGHT_ABOVE_FLOOR

/-! ## LevelConfig (src/levels.ts) -/

structure LevelConfig where
  id : String
  name : String
  platformCount : ℕ
  platformGapFraction : ℚ
  towerIds : List String
  perfectShotPower : ℚ
deriving DecidableEq

def ALL_TOWER_IDS : List String :=
  ["manual-1766309066136", "manual-1766308758716", "manual-1766308701967"]

def BASE_PERFECT_SHOT_POWER : ℚ := 750

def POWER_INCREMENT : ℚ := 50

def getLevelPower (levelNum : ℚ) : ℚ :=
  BASE_PERFECT_SHOT_POWER + (levelNum - 1) * POWER_INCREMENT

/-! ## Phaser math helpers used by the generator -/

/-- Source: `Phaser.Math.Clamp(value, min, max) = Math.max(min, Math.min(max, value))`. -/
def clamp (value lo hi : ℝ) : ℝ := max lo (min hi value)

/-- Source: `Phaser.Math.Linear(p0, p1, t) = (p1 - p0) * t + p0`. -/
def linear (p0 p1 t : ℝ) : ℝ := (p1 - p0) * t + p0

/-- Source: `Phaser.Math.DegToRad(deg) = deg * (π / 180)`. -/
noncomputable def degToRad (deg : ℝ) : ℝ := deg * (Real.pi / 180)

/-! ## Trajectory model and level layout generator (`generateParabolaLevel`) -/

/-- Source: `const rads = Phaser.Math.DegToRad(PERFECT_SHOT_ANGLE_DEG)`. -/
noncomputable def referenceRads : ℝ := degToRad (PERFECT_SHOT_ANGLE_DEG : ℝ)

/-- Source: `const vx = perfectShotPower * Math.cos(rads)`. -/
noncomputable def perfectShotVx (cfg : LevelConfig) : ℝ :=
  (cfg.perfectShotPower : ℝ) * Real.cos referenceRads

/-- Source: `const vy = perfectShotPower * Math.sin(rads)`. -/
noncomputable def perfectShotVy (cfg : LevelConfig) : ℝ :=
  (cfg.perfectShotPower : ℝ) * Real.sin referenceRads

/-- Source: `const tReturnToStartY = (-2 * vy) / GRAVITY_Y`. -/
noncomputable def tReturnToStartY (cfg : LevelConfig) : ℝ :=
  (-2 * perfectShotVy cfg) / (GRAVITY_Y : ℝ)

/-- Source: `const a = 0.5 * GRAVITY_Y` of the platform-top quadratic. -/
noncomputable def quadA : ℝ := 0.5 * (GRAVITY_Y : ℝ)

/-- Source: `const disc = b * b - 4 * a * c` with `b = vy`, `c = PLATFORM_PARABOLA_Y_OFFSET`. -/
noncomputable def quadDisc (cfg : LevelConfig) : ℝ :=
  perfectShotVy cfg * perfectShotVy cfg - 4 * quadA * (PLATFORM_PARABOLA_Y_OFFSET : ℝ)

/-- Source: `const tEnd = (-b + Math.sqrt(disc)) / (2 * a)`. -/
noncomputable def tEnd (cfg : LevelConfig) : ℝ :=
  (-(perfectShotVy cfg) + Real.sqrt (quadDisc cfg)) / (2 * quadA)

/-- Source: `const gap = Phaser.Math.Clamp(this.levelConfig.platformGapFraction, 0, 0.99)`. -/
noncomputable def gapClamped (cfg : LevelConfig) : ℝ :=
  clamp (cfg.platformGapFraction : ℝ) 0 0.99

/-- Source: `const tStart = gap * tReturnToStartY`. -/
noncomputable def tStart (cfg : LevelConfig) : ℝ := gapClamped cfg * tReturnToStartY cfg

/-- Source: `const tStartClamped = Math.min(tStart, tEnd)`. -/
noncomputable def tStartClamped (cfg : LevelConfig) : ℝ := min (tStart cfg) (tEnd cfg)

/-- Source: `const alphaWithin = platformCount === 1 ? 0.5 : i / (platformCount - 1)`. -/
noncomputable def sampleAlpha (cfg : LevelConfig) (i : ℕ) : ℝ :=
  if cfg.platformCount = 1 then 0.5 else (i : ℝ) / ((cfg.platformCount : ℝ) - 1)

/-- Source: `const t = Phaser.Math.Linear(tStartClamped, tEnd, alphaWithin)`. -/
noncomputable def sampleTime (cfg : LevelConfig) (i : ℕ) : ℝ :=
  linear (tStartClamped cfg) (tEnd cfg) (sampleAlpha cfg i)

/-- Source: `const x = startX + vx * t`. -/
noncomputable def trajectoryX (startX vx t : ℝ) : ℝ := startX + vx * t

/-- Source: `const y = startY + vy * t + 0.5 * GRAVITY_Y * t * t`. -/
noncomputable def trajectoryY (startY vy t : ℝ) : ℝ :=
  startY + vy * t + 0.5 * (GRAVITY_Y : ℝ) * (t * t)

/-- The placement data of one platform: `createPlatformWithTower` aligns the
platform's left edge to the parabola sample x (`const platformLeft = x`) and
its top surface `PLATFORM_PARABOLA_Y_OFFSET` below the parabola sample y
(`const platformTop = y + PLATFORM_PARABOLA_Y_OFFSET`). -/
structure PlatformPlacement where
  left : ℝ
  top : ℝ

/-- Source: `createPlatformWithTower(x, y)`, restricted to the placement geometry
(the spawned tower, random definition pick and attached problem are handled
by the game-state model below). -/
noncomputable def createPlatformWithTower (x y : ℝ) : PlatformPlacement :=
  { left := x, top := y + (PLATFORM_PARABOLA_Y_OFFSET : ℝ) }

open Classical in
/-- Source: `generateParabolaLevel`, emitting the list of platform placements.  The
source's `!isFinite(...)` disjuncts are dropped because `ℝ` contains no
non-finite values. -/
noncomputable def generateParabolaLevel (startX startY : ℝ) (cfg : LevelConfig) :
    List PlatformPlacement :=
  if tReturnToStartY cfg ≤ 0 then []
  else if quadDisc cfg ≤ 0 then []
  else if tEnd cfg ≤ 0 then []
  else
    (List.range cfg.platformCount).map fun i =>
      createPlatformWithTower
        (trajectoryX startX (perfectShotVx cfg) (sampleTime cfg i))
        (trajectoryY startY (perfectShotVy cfg) (sampleTime cfg i))

open Classical in
/-- The sample times `t` used by the `generateParabolaLevel` loop, guarded by
the same early returns (an invalid trajectory generates no platforms and
hence no sample times). -/
noncomputable def platformSampleTimes (cfg : LevelConfig) : List ℝ :=
  if tReturnToStartY cfg ≤ 0 then []
  else if quadDisc cfg ≤ 0 then []
  else if tEnd cfg ≤ 0 then []
  else (List.range cfg.platformCount).map (sampleTime cfg)

/-- The three guards of `generateParabolaLevel` all pass. -/
def validTrajectory (cfg : LevelConfig) : Prop :=
  0 < tReturnToStartY cfg ∧ 0 < quadDisc cfg ∧ 0 < tEnd cfg

/-- Source: `create()` order: `createInfiniteFloor()` and `createPlayerBall()` run
before `generateParabolaLevel()`, and the generator's early returns throw
nothing, so floor and projectile exist whatever the trajectory does.
The floor rectangle is `this.add.rectangle(0, FLOOR_Y + 50, UNIVERSE_WIDTH,
100, ...)` with a fixed rigid body; the projectile starts at the catapult
anchor with gravity scale 0. -/
structure WorldSetup where
  floorCenterY : ℚ
  floorHeight : ℚ
  floorFixed : Bool
  projectileX : ℚ
  projectileY : ℚ
  projectileGravityScale : ℚ
  platforms : List PlatformPlacement

/-- The part of `create()` that builds the physics world: floor, projectile,
then the parabola level (platform placements), in source order. -/
noncomputable def createWorld (cfg : LevelConfig) : WorldSetup :=
  { floorCenterY := FLOOR_Y + 50
    floorHeight := 100
    floorFixed := true
    projectileX := CATAPULT_ANCHOR_X
    projectileY := CATAPULT_ANCHOR_Y
    projectileGravityScale := 0
    platforms :=
      generateParabolaLevel (CATAPULT_ANCHOR_X : ℝ) (CATAPULT_ANCHOR_Y : ℝ) cfg }

/-! ## Numeric facts about the fixed reference angle -/

/-- The sine of the reference elevation, `sin (55°)` in radians. -/
noncomputable def sin55 : ℝ := Real.sin (55 * (Real.pi / 180))

lemma referenceRads_eq : referenceRads = -(55 * (Real.pi / 180)) := by
  unfold referenceRads degToRad PERFECT_SHOT_ANGLE_DEG
  push_cast
  ring

lemma sin_referenceRads : Real.sin referenceRads = -sin55 := by
  rw [referenceRads_eq, Real.sin_neg, sin55]

lemma sin55_gt_half : 1 / 2 < sin55 := by
  have hpi := Real.pi_pos
  have h1 : Real.pi / 6 ∈ Set.Icc (-(Real.pi / 2)) (Real.pi / 2) := by
    constructor <;> nlinarith
  have h2 : 55 * (Real.pi / 180) ∈ Set.Icc (-(Real.pi / 2)) (Real.pi / 2) := by
    constructor <;> nlinarith
  have h3 : Real.pi / 6 < 55 * (Real.pi / 180) := by nlinarith
  have := Real.strictMonoOn_sin h1 h2 h3
  rwa [Real.sin_pi_div_six] at this

lemma sin55_pos : 0 < sin55 := lt_trans (by norm_num) sin55_gt_half

lemma sin55_le_one : sin55 ≤ 1 := Real.sin_le_one _

lemma gravity_cast : (GRAVITY_Y : ℝ) = 294.3 := by
  unfold GRAVITY_Y GRAVITY_MULTIPLIER
  norm_num

/-- With perfect-shot power 750 the reference vertical launch speed is
`-750 · sin 55°`. -/
lemma vy_750 (cfg : LevelConfig) (hP : cfg.perfectShotPower = 750) :
    perfectShotVy cfg = -(750 * sin55) := by
  unfold perfectShotVy
  rw [hP, sin_referenceRads]
  push_cast
  ring

lemma tReturn_750 (cfg : LevelConfig) (hP : cfg.perfectShotPower = 750) :
    tReturnToStartY cfg = 1500 * sin55 / 294.3 := by
  unfold tReturnToStartY
  rw [vy_750 cfg hP, gravity_cast]
  ring_nf

lemma quadDisc_750 (cfg : LevelConfig) (hP : cfg.perfectShotPower = 750) :
    quadDisc cfg = 562500 * sin55 ^ 2 - 58860 := by
  unfold quadDisc quadA PLATFORM_PARABOLA_Y_OFFSET PLATFORM_WIDTH
  rw [vy_750 cfg hP, gravity_cast]
  push_cast
  ring

lemma quadDisc_750_pos (cfg : LevelConfig) (hP : cfg.perfectShotPower = 750) :
    0 < quadDisc cfg := by
  rw [quadDisc_750 cfg hP]
  nlinarith [sin55_gt_half]

lemma tEnd_750 (cfg : LevelConfig) (hP : cfg.perfectShotPower = 750) :
    tEnd cfg = (750 * sin55 + Real.sqrt (quadDisc cfg)) / 294.3 := by
  unfold tEnd quadA
  rw [vy_750 cfg hP, gravity_cast]
  ring_nf

lemma tEnd_750_pos (cfg : LevelConfig) (hP : cfg.perfectShotPower = 750) :
    0 < tEnd cfg := by
  rw [tEnd_750 cfg hP]
  have h1 : 0 < 750 * sin55 := by nlinarith [sin55_pos]
  have h2 : 0 ≤ Real.sqrt (quadDisc cfg) := Real.sqrt_nonneg _
  positivity

/-- Every configuration with the stock perfect-shot power `750` has a valid
reference trajectory: all three guards of `generateParabolaLevel` pass. -/
lemma validTrajectory_750 (cfg : LevelConfig) (hP : cfg.perfectShotPower = 750) :
    validTrajectory cfg := by
  refine ⟨?_, quadDisc_750_pos cfg hP, tEnd_750_pos cfg hP⟩
  rw [tReturn_750 cfg hP]
  have := sin55_pos
  positivity

/-! ## Concrete configurations used as inputs -/

/-- Source: `LEVELS[0]` of `src/levels.ts`. -/
def level1Config : LevelConfig :=
  { id := "level-1", name := "First Flight", platformCount := 1,
    platformGapFraction := 0.4, towerIds := ALL_TOWER_IDS, perfectShotPower := 750 }

/-- A configuration with zero perfect-shot power: its reference trajectory is
degenerate (`tReturnToStartY = 0`). -/
def degenerateConfig : LevelConfig :=
  { id := "degenerate", name := "Degenerate", platformCount := 3,
    platformGapFraction := 0.5, towerIds := ALL_TOWER_IDS, perfectShotPower := 0 }

/-- A legal configuration (gap fraction inside [0,1]) whose clamped gap
pushes `tStart` past `tEnd`. -/
def edgeGapConfig : LevelConfig :=
  { id := "edge-gap", name := "Edge Gap", platformCount := 2,
    platformGapFraction := 0.99, towerIds := ALL_TOWER_IDS, perfectShotPower := 750 }

/-- A two-platform configuration with zero gap fraction. -/
def zeroGapConfig : LevelConfig :=
  { id := "zero-gap", name := "Zero Gap", platformCount := 2,
    platformGapFraction := 0, towerIds := ALL_TOWER_IDS, perfectShotPower := 750 }

/-! ## C1: platform placement along the reference parabola -/

/-- C1.  For every `LevelConfig` whose reference trajectory is valid,
`generateParabolaLevel` emits exactly `platformCount` platforms, and
platform `i` is sampled at
`t_i = lerp(min(clamp(gapFraction,0,0.99)·tReturn, tEnd), tEnd, i/(platformCount-1))`
(fraction `0.5` when `platformCount = 1`), with its top-left x equal to
`x(t_i)` and its top surface at `y(t_i) + PLATFORM_PARABOLA_Y_OFFSET`. -/
theorem generateParabolaLevel_places_platforms (startX startY : ℝ)
    (cfg : LevelConfig) (hv : validTrajectory cfg) :
    (generateParabolaLevel startX startY cfg).length = cfg.platformCount ∧
    ∀ i : ℕ, i < cfg.platformCount →
      ((generateParabolaLevel startX startY cfg).getD i ⟨0, 0⟩).left =
          startX + perfectShotVx cfg * sampleTime cfg i ∧
      ((generateParabolaLevel startX startY cfg).getD i ⟨0, 0⟩).top =
          (startY + perfectShotVy cfg * sampleTime cfg i +
            0.5 * (GRAVITY_Y : ℝ) * (sampleTime cfg i * sampleTime cfg i)) +
            (PLATFORM_PARABOLA_Y_OFFSET : ℝ) ∧
      sampleTime cfg i =
        linear (min (clamp (cfg.platformGapFraction : ℝ) 0 0.99 * tReturnToStartY cfg)
            (tEnd cfg)) (tEnd cfg)
          (if cfg.platformCount = 1 then 0.5 else (i : ℝ) / ((cfg.platformCount : ℝ) - 1)) := by
  obtain ⟨h1, h2, h3⟩ := hv
  have hgen : generateParabolaLevel startX startY cfg =
      (List.range cfg.platformCount).map fun i =>
        createPlatformWithTower
          (trajectoryX startX (perfectShotVx cfg) (sampleTime cfg i))
          (trajectoryY startY (perfectShotVy cfg) (sampleTime cfg i)) := by
    unfold generateParabolaLevel
    rw [if_neg (not_le.mpr h1), if_neg (not_le.mpr h2), if_neg (not_le.mpr h3)]
  refine ⟨by rw [hgen]; simp, ?_⟩
  intro i hi
  have hget : (generateParabolaLevel startX startY cfg).getD i ⟨0, 0⟩ =
      createPlatformWithTower
        (trajectoryX startX (perfectShotVx cfg) (sampleTime cfg i))
        (trajectoryY startY (perfectShotVy cfg) (sampleTime cfg i)) := by
    rw [hgen]
    rw [List.getD_eq_getElem?_getD]
    simp [List.getElem?_map, List.getElem?_range, hi]
  rw [hget]
  refine ⟨rfl, rfl, ?_⟩
  unfold sampleTime sampleAlpha tStartClamped tStart gapClamped
  rfl

/-- C1 witness: the stock first level (one platform, gap 0.4, power 750) has a
valid trajectory and produces exactly one platform. -/
theorem generateParabolaLevel_places_platforms_witness :
    validTrajectory level1Config ∧
    (generateParabolaLevel (-600) 400 level1Config).length = 1 ∧
    sampleTime level1Config 0 =
      linear (min (clamp ((level1Config.platformGapFraction : ℚ) : ℝ) 0 0.99 *
          tReturnToStartY level1Config) (tEnd level1Config)) (tEnd level1Config) 0.5 := by
  have hv : validTrajectory level1Config := validTrajectory_750 level1Config rfl
  have h := generateParabolaLevel_places_platforms (-600) 400 level1Config hv
  refine ⟨hv, h.1, ?_⟩
  have h0 := (h.2 0 (by norm_num [level1Config])).2.2
  rw [h0]
  norm_num [level1Config]

/-! ## C8: degenerate trajectories silently produce an empty level -/

/-- C8.  If the return time is non-positive, or the platform-top quadratic's
discriminant is `≤ 0`, or its larger root is non-positive, the generator
emits zero platforms and the rest of the world (floor, projectile) is built
exactly as normal; the generator is a total function, so nothing is raised. -/
theorem degenerate_trajectory_empty_level (cfg : LevelConfig)
    (h : tReturnToStartY cfg ≤ 0 ∨ quadDisc cfg ≤ 0 ∨ tEnd cfg ≤ 0) :
    (createWorld cfg).platforms = [] ∧
    (createWorld cfg).floorCenterY = FLOOR_Y + 50 ∧
    (createWorld cfg).floorHeight = 100 ∧
    (createWorld cfg).floorFixed = true ∧
    (createWorld cfg).projectileX = CATAPULT_ANCHOR_X ∧
    (createWorld cfg).projectileY = CATAPULT_ANCHOR_Y ∧
    (createWorld cfg).projectileGravityScale = 0 := by
  refine ⟨?_, rfl, rfl, rfl, rfl, rfl, rfl⟩
  show generateParabolaLevel (CATAPULT_ANCHOR_X : ℝ) (CATAPULT_ANCHOR_Y : ℝ) cfg = []
  unfold generateParabolaLevel
  split_ifs with g1 g2 g3
  · rfl
  · rfl
  · rfl
  · exfalso
    rcases h with h | h | h
    · exact g1 h
    · exact g2 h
    · exact g3 h

/-- C8 witness: the zero-power configuration is degenerate
(`tReturnToStartY = 0`), yet the world still has its floor and projectile and
simply carries no platforms. -/
theorem degenerate_trajectory_empty_level_witness :
    (createWorld degenerateConfig).platforms = [] ∧
    (createWorld degenerateConfig).projectileGravityScale = 0 := by
  have hvy : perfectShotVy degenerateConfig = 0 := by
    unfold perfectShotVy
    norm_num [degenerateConfig]
  have hdeg : tReturnToStartY degenerateConfig ≤ 0 := by
    unfold tReturnToStartY
    rw [hvy]
    norm_num
  have h := degenerate_trajectory_empty_level degenerateConfig (Or.inl hdeg)
  exact ⟨h.1, h.2.2.2.2.2.2⟩

/-! ## C9: spacing of the platform sample times -/

lemma gapClamped_edge : gapClamped edgeGapConfig = 0.99 := by
  unfold gapClamped clamp
  norm_num [edgeGapConfig]

lemma tEnd_le_tStart_edge : tEnd edgeGapConfig ≤ tStart edgeGapConfig := by
  have hs0 := sin55_pos
  have hs1 := sin55_le_one
  have hsqrt : Real.sqrt (quadDisc edgeGapConfig) ≤ 735 * sin55 := by
    rw [Real.sqrt_le_left (by nlinarith)]
    rw [quadDisc_750 edgeGapConfig rfl]
    nlinarith
  rw [tEnd_750 edgeGapConfig rfl]
  unfold tStart
  rw [gapClamped_edge, tReturn_750 edgeGapConfig rfl]
  rw [div_le_iff₀ (by norm_num)]
  have hsimp : (0.99 : ℝ) * (1500 * sin55 / 294.3) * 294.3 = 1485 * sin55 := by
    field_simp
    ring
  rw [hsimp]
  linarith

lemma tStartClamped_edge : tStartClamped edgeGapConfig = tEnd edgeGapConfig :=
  min_eq_right tEnd_le_tStart_edge

lemma sampleTime_edge (i : ℕ) : sampleTime edgeGapConfig i = tEnd edgeGapConfig := by
  unfold sampleTime linear
  rw [tStartClamped_edge]
  ring

/-- C9 counterexample: `edgeGapConfig` (platformCount 2, gap fraction 0.99,
power 750) has a valid reference trajectory and generates two platforms, but
their sample times are `[tEnd, tEnd]`: equal, hence not strictly
increasing.  The claim's universal statement over all `LevelConfig` with
`platformCount ≥ 2` and a valid trajectory is therefore false. -/
theorem sampleTimes_not_strictly_increasing :
    (platformSampleTimes edgeGapConfig).length = 2 ∧
    ¬ List.Chain' (fun a b : ℝ => a < b) (platformSampleTimes edgeGapConfig) := by
  obtain ⟨h1, h2, h3⟩ := validTrajectory_750 edgeGapConfig rfl
  have htimes : platformSampleTimes edgeGapConfig =
      [tEnd edgeGapConfig, tEnd edgeGapConfig] := by
    unfold platformSampleTimes
    rw [if_neg (not_le.mpr h1), if_neg (not_le.mpr h2), if_neg (not_le.mpr h3)]
    have hc : edgeGapConfig.platformCount = 2 := rfl
    rw [hc]
    simp [List.range_succ, sampleTime_edge]
  rw [htimes]
  refine ⟨rfl, fun hch => ?_⟩
  rw [List.chain'_pair] at hch
  exact lt_irrefl _ hch

lemma sampleTime_spacing (cfg : LevelConfig) (hN : 2 ≤ cfg.platformCount)
    (i : ℕ) :
    sampleTime cfg (i + 1) - sampleTime cfg i =
      (tEnd cfg - tStartClamped cfg) / ((cfg.platformCount : ℝ) - 1) := by
  have hc1 : cfg.platformCount ≠ 1 := by omega
  have hcR : ((cfg.platformCount : ℝ) - 1) ≠ 0 := by
    have : (2 : ℝ) ≤ (cfg.platformCount : ℝ) := by exact_mod_cast hN
    linarith
  unfold sampleTime linear sampleAlpha
  rw [if_neg hc1, if_neg hc1]
  push_cast
  field_simp
  ring

/-- C9 amended.  For `platformCount ≥ 2` with a valid reference trajectory
and `tStartClamped < tEnd` (i.e. the clamped gap start lies strictly before
the end time), the generated sample times are strictly increasing, and they
are evenly spaced in the parameter `t`: every consecutive difference equals
`(tEnd - tStartClamped)/(platformCount - 1)`. -/
theorem sampleTimes_strictly_increasing (cfg : LevelConfig)
    (hN : 2 ≤ cfg.platformCount) (hv : validTrajectory cfg)
    (hlt : tStartClamped cfg < tEnd cfg) :
    List.Chain' (fun a b : ℝ => a < b) (platformSampleTimes cfg) ∧
    ∀ i : ℕ, i + 1 < cfg.platformCount →
      sampleTime cfg (i + 1) - sampleTime cfg i =
        (tEnd cfg - tStartClamped cfg) / ((cfg.platformCount : ℝ) - 1) := by
  obtain ⟨h1, h2, h3⟩ := hv
  have htimes : platformSampleTimes cfg =
      (List.range cfg.platformCount).map (sampleTime cfg) := by
    unfold platformSampleTimes
    rw [if_neg (not_le.mpr h1), if_neg (not_le.mpr h2), if_neg (not_le.mpr h3)]
  have hpos : 0 < (tEnd cfg - tStartClamped cfg) / ((cfg.platformCount : ℝ) - 1) := by
    have hc : (2 : ℝ) ≤ (cfg.platformCount : ℝ) := by exact_mod_cast hN
    have := sub_pos.mpr hlt
    apply div_pos this
    linarith
  constructor
  · rw [htimes]
    rw [List.chain'_iff_get]
    intro i hi
    simp only [List.get_eq_getElem, List.getElem_map, List.getElem_range]
    have hspace := sampleTime_spacing cfg hN i
    linarith [hspace, hpos]
  · intro i _
    exact sampleTime_spacing cfg hN i

/-- C9 amended witness: the two-platform zero-gap power-750 configuration has
strictly increasing sample times. -/
theorem sampleTimes_strictly_increasing_witness :
    List.Chain' (fun a b : ℝ => a < b) (platformSampleTimes zeroGapConfig) := by
  have hv := validTrajectory_750 zeroGapConfig rfl
  have hstart : tStart zeroGapConfig = 0 := by
    unfold tStart gapClamped clamp
    norm_num [zeroGapConfig]
  have hlt : tStartClamped zeroGapConfig < tEnd zeroGapConfig := by
    unfold tStartClamped
    rw [hstart, min_eq_left (le_of_lt hv.2.2)]
    exact hv.2.2
  exact (sampleTimes_strictly_increasing zeroGapConfig (by norm_num [zeroGapConfig])
    hv hlt).1

/-! ## Runtime game state (MainScene fields touched by the tick passes)

Positions and velocities are per-tick snapshots of the Rapier bodies
(the engine owns them between ticks); the passes below read them and write
only through the engine calls that appear in the source
(`setBodyType`, `setLinvel`, `setAngvel`, `setTranslation`, `setGravityScale`).
-/

inductive TowerState where
  | frozen
  | unfrozen
  | dynamic
deriving DecidableEq

inductive BodyType where
  | fixed
  | dynamic
deriving DecidableEq

/-- Collider shapes: tower planks are cuboids, tower balls are balls
(`towerPlanks.ts` / `towerBalls.ts`). -/
inductive ShapeType where
  | cuboid
  | ball
deriving DecidableEq

/-- One Rapier body of a tower (`tower.bodies`): its collider handle, collider
shape, rigid-body type and current velocities. -/
structure PhysBody where
  handle : ℕ
  shape : ShapeType
  bodyType : BodyType
  linvelX : ℚ
  linvelY : ℚ
  angvel : ℚ
deriving DecidableEq

/-- A `TowerBall` entry of `tower.ballBodies` (`towerBalls.ts`): the handle of
its body's collider (the body itself is also a member of `tower.bodies`), the
current center y of that body, its radius and the monotone down flag. -/
structure TowerBall where
  bodyHandle : ℕ
  centerY : ℚ
  radius : ℚ
  isDown : Bool
  hasBeenHit : Bool
deriving DecidableEq

/-- A `MathProblem` of the external `maths-game-problem-generator` package. -/
structure Problem where
  expression : String
  answer : ℚ
deriving DecidableEq

/-- A `TowerTarget` of `main.ts`: the spawned tower instance (bodies and
balls), its displayed question (modelled by presence), problem, lifecycle
state, frozen-skin flag and hosting platform surface y. -/
structure TowerTarget where
  bodies : List PhysBody
  balls : List TowerBall
  hasQuestionText : Bool
  problem : Problem
  state : TowerState
  frozenVisual : Bool
  platformSurfaceY : ℚ
deriving DecidableEq

/-- The projectile ("beaver") body. -/
structure ProjectileBody where
  handle : ℕ
  posX : ℚ
  posY : ℚ
  linvelX : ℚ
  linvelY : ℚ
  angvel : ℚ
  gravityScale : ℚ
deriving DecidableEq

/-- The `MainScene` fields read or written by the passes under
verification. -/
structure GameState where
  towerTargets : List TowerTarget
  ball : ProjectileBody
  floorHandle : ℕ
  hasLaunched : Bool
  simStoppedAtMs : Option ℚ
  launchTimeMs : Option ℚ
  levelComplete : Bool
  levelIndex : ℕ
  score : ℕ
  scoredBodies : Finset ℕ
  answerInputValue : String
  feedbackText : String
  catapultProblem : Option Problem
  catapultQuestionText : String
  upgradeDensityLevel : ℕ
  upgradeProblemDensity : Option Problem
  towerBallTotal : ℕ
  towerBallDown : ℕ
  catapultAnchorX : ℚ
  catapultAnchorY : ℚ
  aimPower : ℚ
  aimAngle : ℚ
  genCounter : ℕ
deriving DecidableEq

/-- The external collaborators, as oracles:
`contactPair a b` is Rapier's `world.contactPair(a, b, cb)` firing its
callback; `checkAnswer p v` is the problem package's answer check applied to
the submitted input (the JS `Number(...)`-or-string coercion of the trimmed
input happens on the way into that external call and is folded into the
oracle); `generateProblem n` is the n-th problem the generator returns
(`generateProblemFromSettings` consumes the stream in order); and
`launchVelocity power angleDeg` is `power * (cos rads, sin rads)` of
`launch()`, kept opaque because the game state is rational-valued. -/
structure Oracles where
  contactPair : ℕ → ℕ → Bool
  checkAnswer : Problem → String → Bool
  generateProblem : ℕ → Problem
  launchVelocity : ℚ → ℚ → ℚ × ℚ

/-- Source: `generateProblemFromSettings()`: draw the next problem from the external
generator (the year-level/type plumbing lives inside the package). -/
def generateProblemFromSettings (o : Oracles) (s : GameState) : Problem × GameState :=
  (o.generateProblem s.genCounter, { s with genCounter := s.genCounter + 1 })

/-- Source: `createCatapultProblem()`. -/
def createCatapultProblem (o : Oracles) (s : GameState) : GameState :=
  let pg := generateProblemFromSettings o s
  { pg.2 with
    catapultProblem := some pg.1
    catapultQuestionText := pg.1.expression ++ " = ?" }

/-- Source: `canUpgrade('density')`:
`densityLevel < BEAVER_DENSITY_LEVELS.length - 1`. -/
def canUpgrade (s : GameState) : Bool :=
  decide (s.upgradeDensityLevel < BEAVER_DENSITY_LEVELS.length - 1)

/-- The retry loop of `generateUniqueProblem` (`maxAttempts` of fuel). -/
def generateUniqueProblemLoop (o : Oracles) (usedAnswers : Finset ℚ) :
    ℕ → Problem → GameState → Problem × GameState
  | 0, problem, s => (problem, s)
  | fuel + 1, problem, s =>
      if problem.answer ∉ usedAnswers then (problem, s)
      else
        let pg := generateProblemFromSettings o s
        generateUniqueProblemLoop o usedAnswers fuel pg.1 pg.2

/-- Source: `generateUniqueProblem(usedAnswers, maxAttempts = 6)`. -/
def generateUniqueProblem (o : Oracles) (s : GameState) (usedAnswers : Finset ℚ) :
    Problem × GameState :=
  let pg := generateProblemFromSettings o s
  generateUniqueProblemLoop o usedAnswers 6 pg.1 pg.2

/-- Source: `refreshUpgradeProblem('density')`.  With `'density'` the only category,
the `usedAnswers` set collected from the other categories is empty. -/
def refreshUpgradeProblem (o : Oracles) (s : GameState) : GameState :=
  if !canUpgrade s then { s with upgradeProblemDensity := none }
  else
    let pg := generateUniqueProblem o s ∅
    { pg.2 with upgradeProblemDensity := some pg.1 }

/-- Source: `getUpgradeLabel('density')`: capitalised category, current level and
maximum. -/
def getUpgradeLabel (s : GameState) : String :=
  "Density " ++ toString (s.upgradeDensityLevel + 1) ++ "/" ++
    toString BEAVER_DENSITY_LEVELS.length

/-- Source: `applyUpgrade('density')`: increment the level, refresh the upgrade
problem, return the label of the applied upgrade (the beaver-stat refresh
touches only collider density/visuals). -/
def applyUpgrade (o : Oracles) (s : GameState) : GameState × String :=
  if !canUpgrade s then (s, "")
  else
    let s1 := { s with upgradeDensityLevel := s.upgradeDensityLevel + 1 }
    (refreshUpgradeProblem o s1, getUpgradeLabel s1)

/-- Source: `tryUpgrade(answerValue)` over the single `'density'` category. -/
def tryUpgrade (o : Oracles) (s : GameState) (value : String) : GameState × String :=
  match s.upgradeProblemDensity with
  | none => (s, "")
  | some problem =>
      if o.checkAnswer problem value then applyUpgrade o s else (s, "")

/-- Source: `launch()`. -/
def launch (o : Oracles) (s : GameState) (now : ℚ) : GameState :=
  if s.hasLaunched then s
  else
    let v := o.launchVelocity s.aimPower s.aimAngle
    { s with
      hasLaunched := true
      simStoppedAtMs := none
      launchTimeMs := some now
      catapultProblem := none
      catapultQuestionText := ""
      ball := { s.ball with gravityScale := 1, linvelX := v.1, linvelY := v.2 } }

/-- JavaScript `String.prototype.trim()`: strip leading and trailing
whitespace (structurally recursive model of the library function, so that
concrete inputs evaluate). -/
def jsTrim (s : String) : String :=
  ⟨((s.data.dropWhile Char.isWhitespace).reverse.dropWhile Char.isWhitespace).reverse⟩

/-- The body of the `submitAnswer` unfreeze loop for one `TowerTarget`,
returning the updated target and its contribution to `unfrozenCount`. -/
def submitUnfreeze (o : Oracles) (value : String) (t : TowerTarget) :
    TowerTarget × ℕ :=
  if t.state ≠ TowerState.frozen then (t, 0)
  else if o.checkAnswer t.problem value then
    ({ t with state := TowerState.unfrozen, frozenVisual := false,
              hasQuestionText := false }, 1)
  else (t, 0)

/-- Source: `submitAnswer()`: an empty trimmed input returns immediately; otherwise
one pass tries the upgrade problem, every frozen tower's problem, and the
catapult problem against the same submitted value, then sets the feedback and
clears the input. -/
def submitAnswer (o : Oracles) (s : GameState) (now : ℚ) : GameState :=
  let trimmed := jsTrim s.answerInputValue
  if trimmed = "" then s
  else
    let up := tryUpgrade o s trimmed
    let s1 := up.1
    let upgradeLabel := up.2
    let updated := s1.towerTargets.map fun t => (submitUnfreeze o trimmed t).1
    let unfrozenCount := (s1.towerTargets.map fun t => (submitUnfreeze o trimmed t).2).sum
    let s2 := { s1 with towerTargets := updated }
    let launchMatch : Bool :=
      !s2.hasLaunched &&
        (match s2.catapultProblem with
         | some problem => o.checkAnswer problem trimmed
         | none => false)
    let s3 := if launchMatch then launch o s2 now else s2
    let feedbackParts : List String :=
      (if upgradeLabel ≠ "" then ["Upgrade: " ++ upgradeLabel ++ "."] else []) ++
      (if 0 < unfrozenCount then
        [toString unfrozenCount ++ " tower" ++
          (if unfrozenCount = 1 then "" else "s") ++ " unfrozen."] else []) ++
      (if launchMatch then ["Launching..."] else [])
    let feedback :=
      if feedbackParts.isEmpty then "Not quite. Try again!"
      else String.intercalate " " feedbackParts
    { s3 with answerInputValue := "", feedbackText := feedback }

/-- Source: `unfreezeAllTowers()` (cheat button). -/
def unfreezeAllTowers (s : GameState) : GameState :=
  let updated := s.towerTargets.map fun t =>
    if t.state = TowerState.frozen then
      { t with state := TowerState.unfrozen, frozenVisual := false,
               hasQuestionText := false }
    else t
  let unfrozenCount :=
    (s.towerTargets.filter fun t => t.state = TowerState.frozen).length
  { s with
    towerTargets := updated
    feedbackText :=
      if 0 < unfrozenCount then
        "Cheat: " ++ toString unfrozenCount ++ " tower" ++
          (if unfrozenCount = 1 then "" else "s") ++ " unfrozen!"
      else "No frozen towers to unfreeze." }

/-- The impactor list built at the start of `checkTowerActivations`:
the projectile (only if launched) followed by the bodies of every tower
already in `dynamic` state, as collider handles. -/
def impactorHandles (s : GameState) : List ℕ :=
  (if s.hasLaunched then [s.ball.handle] else []) ++
    (s.towerTargets.filter fun t => t.state = TowerState.dynamic).flatMap
      fun t => t.bodies.map fun b => b.handle

/-- The triple contact loop of `checkTowerActivations` for one target. -/
def towerHitByImpactor (o : Oracles) (impactors : List ℕ) (t : TowerTarget) : Bool :=
  impactors.any fun ih => t.bodies.any fun b => o.contactPair ih b.handle

/-- Source: `enableBodiesDynamic` (`towers.ts`): switch every body of the tower to
the dynamic rigid-body type (and wake it). -/
def enableDynamics (t : TowerTarget) : TowerTarget :=
  { t with
    state := TowerState.dynamic
    bodies := t.bodies.map fun b => { b with bodyType := BodyType.dynamic } }

/-- Source: `checkTowerActivations()`.  The projectile body always exists after
`create()`, so the `!this.ballBody` bail-out is dropped.  The source loop
mutates `towerTargets` in order, but the impactor list is computed before the
loop and each target's contact test reads only that list and the target's own
bodies, so the sequential loop equals this map. -/
def checkTowerActivations (o : Oracles) (s : GameState) : GameState :=
  let impactors := impactorHandles s
  if impactors.isEmpty then s
  else
    { s with
      towerTargets := s.towerTargets.map fun t =>
        if t.state ≠ TowerState.unfrozen then t
        else if towerHitByImpactor o impactors t then enableDynamics t
        else t }

/-- One step of the `checkTowerGroundHits` double loop: skip bodies already
in `scoredBodies`, otherwise query floor contact and credit one point. -/
def groundHitStep (o : Oracles) (floorHandle : ℕ) (acc : ℕ × Finset ℕ)
    (b : PhysBody) : ℕ × Finset ℕ :=
  if b.handle ∈ acc.2 then acc
  else if o.contactPair b.handle floorHandle then (acc.1 + 1, insert b.handle acc.2)
  else acc

/-- Source: `checkTowerGroundHits()` (the floor body always exists after
`create()`). -/
def checkTowerGroundHits (o : Oracles) (s : GameState) : GameState :=
  let r := (s.towerTargets.flatMap fun t => t.bodies).foldl
    (groundHitStep o s.floorHandle) (s.score, s.scoredBodies)
  { s with score := r.1, scoredBodies := r.2 }

/-- Source: `isTowerBallDown(target, ball)`. -/
def isTowerBallDown (o : Oracles) (s : GameState) (t : TowerTarget)
    (ball : TowerBall) : Bool :=
  let distToFloor := FLOOR_Y - ball.centerY
  let nearFloor := decide (distToFloor ≤ ball.radius + 2)
  let belowPlatform := decide (ball.centerY ≥ t.platformSurfaceY + PLATFORM_HEIGHT)
  let hitFloor := o.contactPair ball.bodyHandle s.floorHandle
  hitFloor || nearFloor || belowPlatform

/-- Source: `completeLevel()` restricted to the modelled fields (`LEVELS.length` is
10 in `levels.ts`). -/
def completeLevel (s : GameState) : GameState :=
  { s with
    levelComplete := true
    feedbackText :=
      if 10 - 1 ≤ s.levelIndex then "All levels cleared! Press Enter for settings."
      else "Level cleared! Press Enter for next level."
    catapultQuestionText := ""
    answerInputValue := "" }

/-- The ball-marking pass inside `checkLevelCompletion`: set `isDown` on
every ball that passes `isTowerBallDown` and is not already down. -/
def markBallsDown (o : Oracles) (s : GameState) : List TowerTarget :=
  s.towerTargets.map fun t =>
    { t with
      balls := t.balls.map fun b =>
        if !b.isDown && isTowerBallDown o s t b then { b with isDown := true }
        else b }

/-- Source: `checkLevelCompletion()` (the floor body always exists; the
`changed`-guarded `updateUI()` is display-only). -/
def checkLevelCompletion (o : Oracles) (s : GameState) : GameState :=
  if s.levelComplete then s
  else
    let updated := markBallsDown o s
    let total : ℕ := (updated.map fun t => t.balls.length).sum
    let down : ℕ := (updated.map fun t => (t.balls.filter fun b => b.isDown).length).sum
    let s1 := { s with towerTargets := updated, towerBallTotal := total,
                       towerBallDown := down }
    if decide (0 < total) && decide (down = total) then completeLevel s1 else s1

/-- The linear and angular velocities of the bodies tracked by
`checkSimulationAutoReset`: the projectile plus every tower body whose
rigid-body type is `Dynamic`. -/
def trackedVels (s : GameState) : List (ℚ × ℚ × ℚ) :=
  (s.ball.linvelX, s.ball.linvelY, s.ball.angvel) ::
    ((s.towerTargets.flatMap fun t => t.bodies.filter fun b =>
        b.bodyType = BodyType.dynamic).map fun b => (b.linvelX, b.linvelY, b.angvel))

/-- The per-body movement test
`speed > BALL_STOP_SPEED || angSpeed > SIM_STOP_ANGULAR_SPEED` with
`speed = Math.hypot(vx, vy)` and `angSpeed = Math.abs(angvel)`.  Since both
sides of the speed comparison are nonnegative, `hypot(vx,vy) > c` is compared
squared; the bridging lemma `hypot_gt_iff_sq` below proves the two forms
equal. -/
def isMovingVel (v : ℚ × ℚ × ℚ) : Bool :=
  decide (BALL_STOP_SPEED ^ 2 < v.1 ^ 2 + v.2.1 ^ 2) ||
    decide (SIM_STOP_ANGULAR_SPEED < |v.2.2|)

/-- Source: `Math.hypot(vx, vy) > BALL_STOP_SPEED` is equivalent to the squared
comparison used by `isMovingVel`. -/
lemma hypot_gt_iff_sq (vx vy : ℚ) :
    ((BALL_STOP_SPEED : ℝ) < Real.sqrt ((vx : ℝ) ^ 2 + (vy : ℝ) ^ 2)) ↔
      ((BALL_STOP_SPEED ^ 2 : ℚ) < vx ^ 2 + vy ^ 2) := by
  rw [Real.lt_sqrt (by norm_num [BALL_STOP_SPEED])]
  constructor
  · intro h
    exact_mod_cast h
  · intro h
    exact_mod_cast h

/-- Source: `resetBallToCatapult()`. -/
def resetBallToCatapult (o : Oracles) (s : GameState) : GameState :=
  let s1 :=
    { s with
      hasLaunched := false
      simStoppedAtMs := none
      ball := { s.ball with
        linvelX := 0, linvelY := 0, angvel := 0,
        posX := s.catapultAnchorX, posY := s.catapultAnchorY,
        gravityScale := 0 } }
  let s2 := createCatapultProblem o s1
  { s2 with answerInputValue := "", feedbackText := "" }

/-- The trailing 7-second fallback of `checkSimulationAutoReset`. -/
def fallbackResetCheck (o : Oracles) (s : GameState) (timeMs : ℚ) : GameState :=
  match s.launchTimeMs with
  | some tLaunch => if 7000 ≤ timeMs - tLaunch then resetBallToCatapult o s else s
  | none => s

/-- Source: `checkSimulationAutoReset(timeMs)`: early exits for a complete level and
an un-launched projectile; otherwise the settle detector (clear the timestamp
while moving, record it on the first settled tick, reset once the grace delay
has elapsed and return), then the 7-second fallback. -/
def checkSimulationAutoReset (o : Oracles) (s : GameState) (timeMs : ℚ) : GameState :=
  if s.levelComplete then s
  else if !s.hasLaunched then { s with simStoppedAtMs := none }
  else if (trackedVels s).any isMovingVel then
    fallbackResetCheck o { s with simStoppedAtMs := none } timeMs
  else
    let s1 := if s.simStoppedAtMs = none then { s with simStoppedAtMs := some timeMs }
              else s
    match s1.simStoppedAtMs with
    | some t0 =>
        if BALL_RESET_DELAY_MS ≤ timeMs - t0 then resetBallToCatapult o s1
        else fallbackResetCheck o s1 timeMs
    | none => fallbackResetCheck o s1 timeMs

/-! ## Preservation lemmas for the upgrade path -/

lemma generateUniqueProblemLoop_state (o : Oracles) (used : Finset ℚ) :
    ∀ (fuel : ℕ) (p : Problem) (s : GameState),
      ∃ n, (generateUniqueProblemLoop o used fuel p s).2 = { s with genCounter := n }
  | 0, p, s => ⟨s.genCounter, rfl⟩
  | fuel + 1, p, s => by
      unfold generateUniqueProblemLoop
      by_cases h : p.answer ∉ used
      · exact ⟨s.genCounter, by rw [if_pos h]⟩
      · rw [if_neg h]
        obtain ⟨n, hn⟩ := generateUniqueProblemLoop_state o used fuel
          (generateProblemFromSettings o s).1 (generateProblemFromSettings o s).2
        exact ⟨n, hn⟩

/-- Source: `tryUpgrade` touches only the problem-generation counter and the two
upgrade fields; every other `MainScene` field is untouched. -/
lemma tryUpgrade_shape (o : Oracles) (s : GameState) (value : String) :
    ∃ n lvl q, (tryUpgrade o s value).1 =
      { s with genCounter := n, upgradeDensityLevel := lvl,
               upgradeProblemDensity := q } := by
  simp only [tryUpgrade, applyUpgrade, refreshUpgradeProblem, generateUniqueProblem]
  split
  next hs =>
    refine ⟨s.genCounter, s.upgradeDensityLevel, none, ?_⟩
    conv_rhs => rw [← hs]
  next problem hs =>
    split
    next hchk =>
      split
      next hcan =>
        refine ⟨s.genCounter, s.upgradeDensityLevel, some problem, ?_⟩
        conv_rhs => rw [← hs]
      next hcan =>
        split
        next hcan1 => exact ⟨s.genCounter, s.upgradeDensityLevel + 1, none, rfl⟩
        next hcan1 =>
          obtain ⟨n, hn⟩ := generateUniqueProblemLoop_state o ∅ 6
            (generateProblemFromSettings o
              { s with upgradeDensityLevel := s.upgradeDensityLevel + 1 }).1
            (generateProblemFromSettings o
              { s with upgradeDensityLevel := s.upgradeDensityLevel + 1 }).2
          refine ⟨n, s.upgradeDensityLevel + 1,
            some (generateUniqueProblemLoop o ∅ 6
              (generateProblemFromSettings o
                { s with upgradeDensityLevel := s.upgradeDensityLevel + 1 }).1
              (generateProblemFromSettings o
                { s with upgradeDensityLevel := s.upgradeDensityLevel + 1 }).2).1, ?_⟩
          rw [hn]
          rfl
    next hchk =>
      refine ⟨s.genCounter, s.upgradeDensityLevel, some problem, ?_⟩
      conv_rhs => rw [← hs]

/-! ## Concrete fixtures for witnesses and counterexamples -/

/-- A default tower used as the `List.getD` fallback. -/
def blankTower : TowerTarget :=
  { bodies := [], balls := [], hasQuestionText := false,
    problem := { expression := "", answer := 0 }, state := TowerState.frozen,
    frozenVisual := true, platformSurfaceY := 0 }

/-- The problem `1 + 1 = 2` used by the fixtures. -/
def fixtureProblem : Problem := { expression := "1 + 1", answer := 2 }

/-- A second problem used by the fixtures. -/
def fixtureProblemB : Problem := { expression := "2 + 3", answer := 5 }

/-- A plank body with a given collider handle. -/
def plankBody (h : ℕ) : PhysBody :=
  { handle := h, shape := ShapeType.cuboid, bodyType := BodyType.fixed,
    linvelX := 0, linvelY := 0, angvel := 0 }

/-- A ball-shaped tower body with a given collider handle. -/
def ballBody (h : ℕ) : PhysBody :=
  { handle := h, shape := ShapeType.ball, bodyType := BodyType.fixed,
    linvelX := 0, linvelY := 0, angvel := 0 }

/-- The projectile fixture (collider handle 1, staged at the catapult). -/
def fixtureProjectile : ProjectileBody :=
  { handle := 1, posX := CATAPULT_ANCHOR_X, posY := CATAPULT_ANCHOR_Y,
    linvelX := 0, linvelY := 0, angvel := 0, gravityScale := 0 }

/-- A tower fixture with one plank body and a given state. -/
def fixtureTower (bodyHandle : ℕ) (st : TowerState) : TowerTarget :=
  { bodies := [plankBody bodyHandle], balls := [], hasQuestionText := st = TowerState.frozen,
    problem := fixtureProblem, state := st, frozenVisual := st = TowerState.frozen,
    platformSurfaceY := 400 }

/-- A base game state shared by the fixtures: floor collider handle 0,
projectile handle 1, mid-play bookkeeping fields zeroed. -/
def baseState : GameState :=
  { towerTargets := [], ball := fixtureProjectile, floorHandle := 0,
    hasLaunched := false, simStoppedAtMs := none, launchTimeMs := none,
    levelComplete := false, levelIndex := 0, score := 0, scoredBodies := ∅,
    answerInputValue := "", feedbackText := "",
    catapultProblem := some fixtureProblem, catapultQuestionText := "1 + 1 = ?",
    upgradeDensityLevel := 0, upgradeProblemDensity := some fixtureProblemB,
    towerBallTotal := 0, towerBallDown := 0,
    catapultAnchorX := CATAPULT_ANCHOR_X, catapultAnchorY := CATAPULT_ANCHOR_Y,
    aimPower := 750, aimAngle := -55, genCounter := 0 }

/-- Oracles for the fixtures: the projectile (1) touches the body with
handle 10, the bodies with handles 10 and 20 touch each other, nothing else
touches; answers check numerically against the submitted text; the generator
returns the fixture problem forever; launch velocity is opaque. -/
def witnessOracles : Oracles :=
  { contactPair := fun a b =>
      (decide (a = 1) && decide (b = 10)) ||
      (decide (a = 10) && decide (b = 20)) ||
      (decide (a = 20) && decide (b = 10))
    checkAnswer := fun p v => decide (v = "2") && decide (p.answer = 2)
    generateProblem := fun _ => fixtureProblemB
    launchVelocity := fun _ _ => (430, -614) }

/-- A launched state with one frozen tower whose plank (handle 10) the
projectile touches. -/
def witnessFrozenState : GameState :=
  { baseState with
    towerTargets := [fixtureTower 10 TowerState.frozen]
    hasLaunched := true
    launchTimeMs := some 0
    catapultProblem := none }

/-! ## C2: the tower lifecycle is monotone -/

/-- Position of a state in the frozen → unfrozen → dynamic order. -/
def stateRank : TowerState → ℕ
  | TowerState.frozen => 0
  | TowerState.unfrozen => 1
  | TowerState.dynamic => 2

lemma submitUnfreeze_mono (o : Oracles) (value : String) (t : TowerTarget) :
    stateRank t.state ≤ stateRank ((submitUnfreeze o value t).1).state ∧
    (((submitUnfreeze o value t).1).state = TowerState.dynamic →
      t.state = TowerState.dynamic) := by
  unfold submitUnfreeze
  split_ifs with h1 h2
  · exact ⟨le_refl _, fun h => h⟩
  · refine ⟨?_, ?_⟩
    · rw [not_not] at h1
      rw [h1]
      exact Nat.le_of_lt_succ (by simp [stateRank])
    · intro h
      exact absurd h (by simp)
  · exact ⟨le_refl _, fun h => h⟩

lemma activation_step_mono (o : Oracles) (impactors : List ℕ) (t : TowerTarget) :
    stateRank t.state ≤
      stateRank ((if t.state ≠ TowerState.unfrozen then t
        else if towerHitByImpactor o impactors t then enableDynamics t else t)).state ∧
    (((if t.state ≠ TowerState.unfrozen then t
        else if towerHitByImpactor o impactors t then enableDynamics t else t)).state =
        TowerState.dynamic → t.state ≠ TowerState.frozen) ∧
    (t.state = TowerState.frozen →
      ((if t.state ≠ TowerState.unfrozen then t
        else if towerHitByImpactor o impactors t then enableDynamics t else t)).state =
        TowerState.frozen) := by
  by_cases h1 : t.state ≠ TowerState.unfrozen
  · rw [if_pos h1]
    refine ⟨le_refl _, fun hd hf => ?_, fun hf => hf⟩
    rw [hf] at hd
    exact absurd hd (by simp)
  · rw [if_neg h1]
    rw [not_not] at h1
    by_cases h2 : towerHitByImpactor o impactors t = true
    · rw [if_pos h2]
      refine ⟨?_, fun _ hf => ?_, fun hf => ?_⟩
      · rw [h1]
        unfold enableDynamics stateRank
        simp
      · rw [hf] at h1
        exact absurd h1 (by simp)
      · rw [hf] at h1
        exact absurd h1 (by simp)
    · rw [if_neg h2]
      refine ⟨le_refl _, fun _ => ?_, fun hf => hf⟩
      rw [h1]
      simp

lemma launch_towerTargets (o : Oracles) (s : GameState) (now : ℚ) :
    (launch o s now).towerTargets = s.towerTargets := by
  unfold launch
  split <;> rfl

lemma submitAnswer_of_empty (o : Oracles) (s : GameState) (now : ℚ)
    (h : jsTrim s.answerInputValue = "") : submitAnswer o s now = s := by
  simp only [submitAnswer, h, if_pos]

lemma submitAnswer_towerTargets_of_ne (o : Oracles) (s : GameState) (now : ℚ)
    (h : jsTrim s.answerInputValue ≠ "") :
    (submitAnswer o s now).towerTargets =
      s.towerTargets.map fun t => (submitUnfreeze o (jsTrim s.answerInputValue) t).1 := by
  obtain ⟨n, lvl, q, hshape⟩ := tryUpgrade_shape o s (jsTrim s.answerInputValue)
  simp only [submitAnswer]
  rw [if_neg h]
  simp only [hshape]
  split
  · rw [launch_towerTargets]
  · rfl

lemma submitAnswer_towerTargets (o : Oracles) (s : GameState) (now : ℚ) :
    (submitAnswer o s now).towerTargets = s.towerTargets ∨
    (submitAnswer o s now).towerTargets =
      s.towerTargets.map fun t => (submitUnfreeze o (jsTrim s.answerInputValue) t).1 := by
  by_cases h : jsTrim s.answerInputValue = ""
  · exact Or.inl (by rw [submitAnswer_of_empty o s now h])
  · exact Or.inr (submitAnswer_towerTargets_of_ne o s now h)

/-- C2.  Across the passes that write tower states (`submitAnswer`,
`checkTowerActivations`, the cheat `unfreezeAllTowers`), every tower's state
only moves forward in the frozen → unfrozen → dynamic order; `submitAnswer`
and the cheat never produce `dynamic`, a tower observed `dynamic` after the
contact pass was not `frozen` before it (it must already have passed through
`unfrozen`), and a contact-pair hit can never change a tower that is still
`frozen`. -/
theorem tower_lifecycle_monotone (o : Oracles) (s : GameState) (now : ℚ) :
    List.Forall₂ (fun t t' => stateRank t.state ≤ stateRank t'.state ∧
        (t'.state = TowerState.dynamic → t.state = TowerState.dynamic))
      s.towerTargets (submitAnswer o s now).towerTargets ∧
    List.Forall₂ (fun t t' => stateRank t.state ≤ stateRank t'.state ∧
        (t'.state = TowerState.dynamic → t.state ≠ TowerState.frozen) ∧
        (t.state = TowerState.frozen → t'.state = TowerState.frozen))
      s.towerTargets (checkTowerActivations o s).towerTargets ∧
    List.Forall₂ (fun t t' => stateRank t.state ≤ stateRank t'.state ∧
        (t'.state = TowerState.dynamic → t.state = TowerState.dynamic))
      s.towerTargets (unfreezeAllTowers s).towerTargets := by
  refine ⟨?_, ?_, ?_⟩
  · rcases submitAnswer_towerTargets o s now with h | h
    · rw [h]
      exact List.forall₂_same.2 fun t _ => ⟨le_refl _, fun hd => hd⟩
    · rw [h]
      rw [List.forall₂_map_right_iff]
      exact List.forall₂_same.2 fun t _ =>
        submitUnfreeze_mono o (jsTrim s.answerInputValue) t
  · simp only [checkTowerActivations]
    split
    · exact List.forall₂_same.2 fun t _ => ⟨le_refl _, by
        intro hd
        rw [hd]
        simp, fun hf => hf⟩
    · simp only []
      rw [List.forall₂_map_right_iff]
      exact List.forall₂_same.2 fun t _ =>
        activation_step_mono o (impactorHandles s) t
  · simp only [unfreezeAllTowers]
    rw [List.forall₂_map_right_iff]
    refine List.forall₂_same.2 fun t _ => ?_
    split
    next hf =>
      refine ⟨?_, ?_⟩
      · rw [hf]
        exact Nat.le_of_lt_succ (by simp [stateRank])
      · intro hd
        exact absurd hd (by simp)
    next hf => exact ⟨le_refl _, fun hd => hd⟩

/-- C2 witness: a concrete single-tower state whose frozen tower stays frozen
through the contact pass. -/
theorem tower_lifecycle_monotone_witness :
    List.Forall₂ (fun t t' => stateRank t.state ≤ stateRank t'.state ∧
        (t'.state = TowerState.dynamic → t.state ≠ TowerState.frozen) ∧
        (t.state = TowerState.frozen → t'.state = TowerState.frozen))
      witnessFrozenState.towerTargets
      (checkTowerActivations witnessOracles witnessFrozenState).towerTargets :=
  (tower_lifecycle_monotone witnessOracles witnessFrozenState 0).2.1

/-! ## C3: the impactor set is a start-of-tick snapshot -/

/-- A launched state with two unfrozen towers: the projectile (1) touches
tower 0's plank (10); tower 0's plank touches tower 1's plank (20); the
projectile does not touch tower 1. -/
def chainState : GameState :=
  { baseState with
    towerTargets := [fixtureTower 10 TowerState.unfrozen,
                     fixtureTower 20 TowerState.unfrozen]
    hasLaunched := true
    launchTimeMs := some 0
    catapultProblem := none }

/-- C3 counterexample: in `chainState` the projectile knocks tower 0
`dynamic` during the tick, tower 0's plank is in contact with tower 1's
plank, yet tower 1 is still `unfrozen` after the same tick — a body that
becomes dynamic earlier in the tick is not eligible to trigger another tower
later in that same tick, contradicting the claim. -/
theorem activation_not_same_tick :
    ((checkTowerActivations witnessOracles chainState).towerTargets.getD 0
        blankTower).state = TowerState.dynamic ∧
    witnessOracles.contactPair 10 20 = true ∧
    ((checkTowerActivations witnessOracles chainState).towerTargets.getD 1
        blankTower).state = TowerState.unfrozen := by
  refine ⟨?_, by decide, ?_⟩ <;> decide

lemma activation_step_dynamic_iff (o : Oracles) (impactors : List ℕ)
    (t : TowerTarget) :
    ((if t.state ≠ TowerState.unfrozen then t
      else if towerHitByImpactor o impactors t then enableDynamics t else t).state =
        TowerState.dynamic) ↔
      (t.state = TowerState.dynamic ∨
        (t.state = TowerState.unfrozen ∧ towerHitByImpactor o impactors t = true)) := by
  by_cases h1 : t.state ≠ TowerState.unfrozen
  · rw [if_pos h1]
    constructor
    · exact fun h => Or.inl h
    · rintro (h | ⟨h, _⟩)
      · exact h
      · exact absurd h h1
  · rw [if_neg h1]
    rw [not_not] at h1
    by_cases h2 : towerHitByImpactor o impactors t = true
    · rw [if_pos h2]
      constructor
      · intro _
        exact Or.inr ⟨h1, h2⟩
      · intro _
        rfl
    · rw [if_neg h2]
      constructor
      · intro h
        rw [h1] at h
        exact absurd h (by simp)
      · rintro (h | ⟨_, h⟩)
        · rw [h1] at h
          exact absurd h (by simp)
        · exact absurd h h2

/-- C3 amended.  Within one tick of `checkTowerActivations`, a tower ends
`dynamic` exactly when it already was `dynamic`, or it was `unfrozen` and one
of its bodies touches the impactor set computed at the start of the tick —
the launched projectile plus the bodies of towers already `dynamic` at the
start of the tick.  A tower that becomes dynamic during the pass joins the
impactor set only on subsequent ticks, so chains propagate one link per
tick. -/
theorem activation_uses_start_of_tick_impactors (o : Oracles) (s : GameState)
    (i : ℕ) (hi : i < s.towerTargets.length) :
    (((checkTowerActivations o s).towerTargets.getD i blankTower).state =
        TowerState.dynamic) ↔
      ((s.towerTargets.getD i blankTower).state = TowerState.dynamic ∨
        ((s.towerTargets.getD i blankTower).state = TowerState.unfrozen ∧
          towerHitByImpactor o (impactorHandles s)
            (s.towerTargets.getD i blankTower) = true)) := by
  simp only [checkTowerActivations]
  split
  next hemp =>
    have himp : impactorHandles s = [] := by
      rwa [List.isEmpty_iff] at hemp
    constructor
    · exact fun h => Or.inl h
    · rintro (h | ⟨_, hc⟩)
      · exact h
      · rw [himp] at hc
        simp [towerHitByImpactor] at hc
  next hemp =>
    have hmap : (s.towerTargets.map fun t =>
        if t.state ≠ TowerState.unfrozen then t
        else if towerHitByImpactor o (impactorHandles s) t then enableDynamics t
        else t).getD i blankTower =
        (fun t => if t.state ≠ TowerState.unfrozen then t
          else if towerHitByImpactor o (impactorHandles s) t then enableDynamics t
          else t) (s.towerTargets.getD i blankTower) := by
      rw [List.getD_eq_getElem?_getD, List.getD_eq_getElem?_getD, List.getElem?_map,
        List.getElem?_eq_getElem hi]
      rfl
    rw [hmap]
    exact activation_step_dynamic_iff o (impactorHandles s)
      (s.towerTargets.getD i blankTower)

/-- C3 amended witness: running the pass a second tick on `chainState` does
make tower 1 dynamic, because tower 0 is in the impactor set from the start
of the second tick. -/
theorem activation_uses_start_of_tick_impactors_witness :
    (((checkTowerActivations witnessOracles
          (checkTowerActivations witnessOracles chainState)).towerTargets.getD 1
        blankTower).state = TowerState.dynamic) :=
  (activation_uses_start_of_tick_impactors witnessOracles
      (checkTowerActivations witnessOracles chainState) 1 (by decide)).mpr
    (Or.inr ⟨by decide, by decide⟩)

/-! ## C10: one submission is checked against every problem in one pass -/

lemma refreshUpgradeProblem_densityLevel (o : Oracles) (s : GameState) :
    (refreshUpgradeProblem o s).upgradeDensityLevel = s.upgradeDensityLevel := by
  simp only [refreshUpgradeProblem, generateUniqueProblem]
  split
  · rfl
  · obtain ⟨n, hn⟩ := generateUniqueProblemLoop_state o ∅ 6
      (generateProblemFromSettings o s).1 (generateProblemFromSettings o s).2
    rw [hn]
    rfl

lemma tryUpgrade_densityLevel (o : Oracles) (s : GameState) (value : String) :
    (tryUpgrade o s value).1.upgradeDensityLevel =
      (match s.upgradeProblemDensity with
       | some problem =>
           if o.checkAnswer problem value = true ∧ canUpgrade s = true then
             s.upgradeDensityLevel + 1
           else s.upgradeDensityLevel
       | none => s.upgradeDensityLevel) := by
  cases hq : s.upgradeProblemDensity with
  | none => simp only [tryUpgrade, hq]
  | some problem =>
      simp only [tryUpgrade, hq]
      by_cases hchk : o.checkAnswer problem value = true
      · rw [if_pos hchk]
        simp only [applyUpgrade]
        by_cases hcan : canUpgrade s = true
        · rw [if_neg (by rw [hcan]; simp)]
          rw [if_pos ⟨hchk, hcan⟩]
          exact refreshUpgradeProblem_densityLevel o _
        · rw [if_pos (by rw [Bool.not_eq_true] at hcan; rw [hcan]; rfl)]
          rw [if_neg (by rintro ⟨_, hc⟩; exact hcan hc)]
      · rw [if_neg hchk]
        rw [if_neg (by rintro ⟨hc, _⟩; exact hchk hc)]

lemma tryUpgrade_hasLaunched (o : Oracles) (s : GameState) (value : String) :
    (tryUpgrade o s value).1.hasLaunched = s.hasLaunched := by
  obtain ⟨n, lvl, q, hshape⟩ := tryUpgrade_shape o s value
  rw [hshape]

lemma tryUpgrade_catapultProblem (o : Oracles) (s : GameState) (value : String) :
    (tryUpgrade o s value).1.catapultProblem = s.catapultProblem := by
  obtain ⟨n, lvl, q, hshape⟩ := tryUpgrade_shape o s value
  rw [hshape]

lemma submitUnfreeze_characterization (o : Oracles) (value : String)
    (t : TowerTarget) :
    ((submitUnfreeze o value t).1).state =
      (if t.state = TowerState.frozen ∧ o.checkAnswer t.problem value = true then
        TowerState.unfrozen
      else t.state) ∧
    ((submitUnfreeze o value t).1).problem = t.problem := by
  unfold submitUnfreeze
  by_cases h1 : t.state ≠ TowerState.frozen
  · rw [if_pos h1, if_neg (by rintro ⟨hf, _⟩; exact h1 hf)]
    exact ⟨rfl, rfl⟩
  · rw [not_not] at h1
    rw [if_neg (by rw [h1]; simp)]
    by_cases h2 : o.checkAnswer t.problem value = true
    · rw [if_pos h2, if_pos ⟨h1, h2⟩]
      exact ⟨rfl, rfl⟩
    · rw [if_neg h2, if_neg (by rintro ⟨_, hc⟩; exact h2 hc)]
      exact ⟨rfl, rfl⟩

/-- C10.  `submitAnswer` with an empty trimmed input changes nothing at all;
with a non-empty input the same submitted value is checked in one pass
against the upgrade problem, every frozen tower's problem and the catapult
problem: every frozen tower whose problem it matches becomes `unfrozen`
(others keep their state, problems are never rewritten by the pass), the
density upgrade is applied exactly when its problem exists, matches and can
still level up, and the launch fires exactly when the projectile is
un-launched and the catapult problem matches — so one submission can do all
three simultaneously. -/
theorem submitAnswer_checks_all_problems (o : Oracles) (s : GameState) (now : ℚ) :
    (jsTrim s.answerInputValue = "" → submitAnswer o s now = s) ∧
    (jsTrim s.answerInputValue ≠ "" →
      List.Forall₂ (fun t t' =>
          t'.state =
            (if t.state = TowerState.frozen ∧
                o.checkAnswer t.problem (jsTrim s.answerInputValue) = true then
              TowerState.unfrozen
            else t.state) ∧
          t'.problem = t.problem)
        s.towerTargets (submitAnswer o s now).towerTargets ∧
      (submitAnswer o s now).upgradeDensityLevel =
        (match s.upgradeProblemDensity with
         | some problem =>
             if o.checkAnswer problem (jsTrim s.answerInputValue) = true ∧
                 canUpgrade s = true then
               s.upgradeDensityLevel + 1
             else s.upgradeDensityLevel
         | none => s.upgradeDensityLevel) ∧
      (submitAnswer o s now).hasLaunched =
        (s.hasLaunched ||
          (match s.catapultProblem with
           | some problem => o.checkAnswer problem (jsTrim s.answerInputValue)
           | none => false))) := by
  refine ⟨submitAnswer_of_empty o s now, fun h => ⟨?_, ?_, ?_⟩⟩
  · rw [submitAnswer_towerTargets_of_ne o s now h]
    rw [List.forall₂_map_right_iff]
    exact List.forall₂_same.2 fun t _ =>
      submitUnfreeze_characterization o (jsTrim s.answerInputValue) t
  · simp only [submitAnswer]
    rw [if_neg h]
    have hlvl := tryUpgrade_densityLevel o s (jsTrim s.answerInputValue)
    obtain ⟨n, lvl, q, hshape⟩ := tryUpgrade_shape o s (jsTrim s.answerInputValue)
    simp only [hshape] at hlvl ⊢
    split
    · simp only [launch]
      split
      · exact hlvl
      · exact hlvl
    · exact hlvl
  · simp only [submitAnswer]
    rw [if_neg h]
    obtain ⟨n, lvl, q, hshape⟩ := tryUpgrade_shape o s (jsTrim s.answerInputValue)
    simp only [hshape]
    cases hq : s.catapultProblem with
    | none =>
        simp only [hq]
        cases hl : s.hasLaunched <;> simp [launch, hl]
    | some problem =>
        simp only [hq]
        cases hl : s.hasLaunched with
        | true => simp [launch, hl]
        | false =>
            by_cases hc : o.checkAnswer problem (jsTrim s.answerInputValue) = true
            · rw [if_pos (by rw [hc]; rfl)]
              simp [launch, hc]
            · have hc' : o.checkAnswer problem (jsTrim s.answerInputValue) = false := by
                rwa [Bool.not_eq_true] at hc
              rw [if_neg (by rw [hc']; simp)]
              simp [hc']

/-- A staged state with two frozen towers, all three problem slots holding
the same `1 + 1` problem, and `"2"` typed into the answer box. -/
def submitState : GameState :=
  { baseState with
    towerTargets := [fixtureTower 10 TowerState.frozen,
                     fixtureTower 20 TowerState.frozen]
    upgradeProblemDensity := some fixtureProblem
    answerInputValue := "2" }

/-- C10 witness: submitting the one answer `"2"` simultaneously unfreezes
both frozen towers, applies the density upgrade, and launches the
projectile. -/
theorem submitAnswer_checks_all_problems_witness :
    (submitAnswer witnessOracles submitState 0).upgradeDensityLevel =
        submitState.upgradeDensityLevel + 1 ∧
    (submitAnswer witnessOracles submitState 0).hasLaunched = true ∧
    ((submitAnswer witnessOracles submitState 0).towerTargets.getD 0
        blankTower).state = TowerState.unfrozen ∧
    ((submitAnswer witnessOracles submitState 0).towerTargets.getD 1
        blankTower).state = TowerState.unfrozen := by
  have h := (submitAnswer_checks_all_problems witnessOracles submitState 0).2
    (by decide)
  refine ⟨?_, ?_, by decide, by decide⟩
  · rw [h.2.1]
    decide
  · rw [h.2.2]
    decide

/-! ## C4: settle detection with grace delay and 7-second hard fallback -/

lemma resetBallToCatapult_ignores_simStopped (o : Oracles) (s : GameState)
    (x : Option ℚ) :
    resetBallToCatapult o { s with simStoppedAtMs := x } = resetBallToCatapult o s :=
  rfl

/-- C4.  While launched and the level is incomplete: if every tracked body
(projectile plus every dynamic-type tower body) is at or below both speed
thresholds and no settle timestamp exists yet, the current tick's time is
recorded (and, with the 7-second fallback not yet due, no reset happens);
once a recorded settle timestamp is `BALL_RESET_DELAY_MS` or more in the
past, the tick performs exactly `resetBallToCatapult`; and 7 seconds after
launch the same reset is forced regardless of settle state.
`resetBallToCatapult` zeroes the projectile's linear and angular velocity,
returns it to the catapult anchor, suspends gravity, and generates a fresh
catapult problem. -/
theorem autoReset_settle_and_fallback (o : Oracles) (s : GameState) (timeMs : ℚ)
    (hL : s.hasLaunched = true) (hC : s.levelComplete = false) :
    ((trackedVels s).any isMovingVel = false → s.simStoppedAtMs = none →
      (∀ tL, s.launchTimeMs = some tL → timeMs - tL < 7000) →
      (checkSimulationAutoReset o s timeMs).simStoppedAtMs = some timeMs ∧
      (checkSimulationAutoReset o s timeMs).hasLaunched = true) ∧
    (∀ t0, (trackedVels s).any isMovingVel = false → s.simStoppedAtMs = some t0 →
      BALL_RESET_DELAY_MS ≤ timeMs - t0 →
      checkSimulationAutoReset o s timeMs = resetBallToCatapult o s) ∧
    (∀ tL, s.launchTimeMs = some tL → 7000 ≤ timeMs - tL →
      checkSimulationAutoReset o s timeMs = resetBallToCatapult o s) ∧
    ((resetBallToCatapult o s).hasLaunched = false ∧
      (resetBallToCatapult o s).ball.linvelX = 0 ∧
      (resetBallToCatapult o s).ball.linvelY = 0 ∧
      (resetBallToCatapult o s).ball.angvel = 0 ∧
      (resetBallToCatapult o s).ball.posX = s.catapultAnchorX ∧
      (resetBallToCatapult o s).ball.posY = s.catapultAnchorY ∧
      (resetBallToCatapult o s).ball.gravityScale = 0 ∧
      (resetBallToCatapult o s).catapultProblem =
        some (o.generateProblem s.genCounter)) := by
  have hred : checkSimulationAutoReset o s timeMs =
      (if (trackedVels s).any isMovingVel then
        fallbackResetCheck o { s with simStoppedAtMs := none } timeMs
      else
        let s1 := if s.simStoppedAtMs = none then
            { s with simStoppedAtMs := some timeMs } else s
        match s1.simStoppedAtMs with
        | some t0 =>
            if BALL_RESET_DELAY_MS ≤ timeMs - t0 then resetBallToCatapult o s1
            else fallbackResetCheck o s1 timeMs
        | none => fallbackResetCheck o s1 timeMs) := by
    simp only [checkSimulationAutoReset]
    rw [if_neg (by rw [hC]; simp), if_neg (by rw [hL]; simp)]
  refine ⟨?_, ?_, ?_, rfl, rfl, rfl, rfl, rfl, rfl, rfl, rfl⟩
  · intro hset hnone hfb
    rw [hred, if_neg (by rw [hset]; simp)]
    have hgrace : ¬(BALL_RESET_DELAY_MS ≤ (0 : ℚ)) := by
      norm_num [BALL_RESET_DELAY_MS]
    cases hlt : s.launchTimeMs with
    | none => simp [hnone, hgrace, fallbackResetCheck, hlt, hL]
    | some tL =>
        have h7 : ¬(7000 ≤ timeMs - tL) := not_le.mpr (hfb tL hlt)
        simp [hnone, hgrace, fallbackResetCheck, hlt, h7, hL]
  · intro t0 hset hsome hgrace
    rw [hred, if_neg (by rw [hset]; simp)]
    have hns : ¬s.simStoppedAtMs = none := by rw [hsome]; simp
    simp [hns, hsome, hgrace]
  · intro tL hlt hdue
    rw [hred]
    by_cases hmov : (trackedVels s).any isMovingVel = true
    · rw [if_pos hmov]
      unfold fallbackResetCheck
      simp only [hlt]
      rw [if_pos hdue]
      rw [← hlt]
      rfl
    · rw [if_neg hmov]
      cases hsome : s.simStoppedAtMs with
      | none =>
          have hgrace : ¬(BALL_RESET_DELAY_MS ≤ (0 : ℚ)) := by
            norm_num [BALL_RESET_DELAY_MS]
          simp only [hsome, if_pos rfl]
          simp [hgrace, fallbackResetCheck, hlt, hdue]
          rw [← hlt]
          rfl
      | some t0 =>
          have hns : ¬s.simStoppedAtMs = none := by rw [hsome]; simp
          by_cases hgrace : BALL_RESET_DELAY_MS ≤ timeMs - t0
          · simp [hns, hsome, hgrace]
          · simp [hns, hsome, hgrace, fallbackResetCheck, hlt, hdue]

/-- A launched, fully settled state: the projectile and one dynamic tower
body are at rest and the settle timestamp was recorded at 1000 ms. -/
def settledState : GameState :=
  { baseState with
    towerTargets :=
      [{ fixtureTower 10 TowerState.dynamic with
          bodies := [{ plankBody 10 with bodyType := BodyType.dynamic }] }]
    hasLaunched := true
    launchTimeMs := some 0
    simStoppedAtMs := some 1000
    catapultProblem := none }

/-- C4 witness: at 4000 ms (3000 ms after the recorded settle timestamp,
matching `BALL_RESET_DELAY_MS`) the settled state is auto-reset: the
projectile is back at the catapult with zero velocity and suspended gravity,
and a fresh catapult problem exists. -/
theorem autoReset_settle_and_fallback_witness :
    (checkSimulationAutoReset witnessOracles settledState 4000).hasLaunched = false ∧
    (checkSimulationAutoReset witnessOracles settledState 4000).ball.posX =
      settledState.catapultAnchorX ∧
    (checkSimulationAutoReset witnessOracles settledState 4000).ball.linvelX = 0 ∧
    (checkSimulationAutoReset witnessOracles settledState 4000).ball.gravityScale = 0 ∧
    (checkSimulationAutoReset witnessOracles settledState 4000).catapultProblem =
      some (witnessOracles.generateProblem settledState.genCounter) := by
  have hsettled : (trackedVels settledState).any isMovingVel = false := by
    norm_num [trackedVels, settledState, baseState, fixtureTower, fixtureProjectile,
      plankBody, isMovingVel, BALL_STOP_SPEED, SIM_STOP_ANGULAR_SPEED]
  have h := (autoReset_settle_and_fallback witnessOracles settledState 4000 rfl
    rfl).2.1 1000 hsettled rfl (by norm_num [BALL_RESET_DELAY_MS])
  rw [h]
  exact ⟨rfl, rfl, rfl, rfl, rfl⟩

/-! ## C5: the per-ball down flag -/

lemma checkLevelCompletion_of_complete (o : Oracles) (s : GameState)
    (h : s.levelComplete = true) : checkLevelCompletion o s = s := by
  simp only [checkLevelCompletion, h, if_pos]

lemma checkLevelCompletion_towerTargets (o : Oracles) (s : GameState)
    (h : s.levelComplete = false) :
    (checkLevelCompletion o s).towerTargets = markBallsDown o s := by
  simp only [checkLevelCompletion]
  rw [if_neg (by rw [h]; simp)]
  split
  · rfl
  · rfl

lemma markBall_isDown (o : Oracles) (s : GameState) (t : TowerTarget)
    (b : TowerBall) :
    ((if !b.isDown && isTowerBallDown o s t b then { b with isDown := true }
      else b).isDown) = (b.isDown || isTowerBallDown o s t b) := by
  cases hb : b.isDown
  · cases hd : isTowerBallDown o s t b <;> simp [hb, hd]
  · simp [hb]

/-- C5.  While the level is not complete, `checkLevelCompletion` sets each
ball's `isDown` flag to true exactly when it already was down or any of the
three signals holds — direct floor contact, vertical distance to the floor
within radius + 2, or center at or below the platform surface plus the
platform thickness — and a flag that is already set is never cleared.  When
the level is already complete the pass changes nothing. -/
theorem ballDown_three_signals_monotone (o : Oracles) (s : GameState) :
    (s.levelComplete = true → checkLevelCompletion o s = s) ∧
    (s.levelComplete = false →
      List.Forall₂ (fun t t' =>
          t'.platformSurfaceY = t.platformSurfaceY ∧
          List.Forall₂ (fun b b' =>
              b'.isDown = (b.isDown ||
                (o.contactPair b.bodyHandle s.floorHandle ||
                  decide (FLOOR_Y - b.centerY ≤ b.radius + 2) ||
                  decide (b.centerY ≥ t.platformSurfaceY + PLATFORM_HEIGHT))) ∧
              (b.isDown = true → b'.isDown = true))
            t.balls t'.balls)
        s.towerTargets (checkLevelCompletion o s).towerTargets) := by
  refine ⟨checkLevelCompletion_of_complete o s, fun h => ?_⟩
  rw [checkLevelCompletion_towerTargets o s h]
  unfold markBallsDown
  rw [List.forall₂_map_right_iff]
  refine List.forall₂_same.2 fun t _ => ⟨rfl, ?_⟩
  rw [List.forall₂_map_right_iff]
  refine List.forall₂_same.2 fun b _ => ?_
  have hiff : isTowerBallDown o s t b =
      (o.contactPair b.bodyHandle s.floorHandle ||
        decide (FLOOR_Y - b.centerY ≤ b.radius + 2) ||
        decide (b.centerY ≥ t.platformSurfaceY + PLATFORM_HEIGHT)) := rfl
  refine ⟨by rw [markBall_isDown, hiff], fun hb => ?_⟩
  rw [markBall_isDown]
  rw [hb]
  simp

/-- A dynamic tower holding three balls (collider handles 100, 101, 102),
all well above both the floor and the platform surface. -/
def threeBallTower : TowerTarget :=
  { bodies := [plankBody 50, ballBody 100, ballBody 101, ballBody 102],
    balls :=
      [{ bodyHandle := 100, centerY := 200, radius := 20, isDown := false,
         hasBeenHit := false },
       { bodyHandle := 101, centerY := 200, radius := 20, isDown := false,
         hasBeenHit := false },
       { bodyHandle := 102, centerY := 200, radius := 20, isDown := false,
         hasBeenHit := false }],
    hasQuestionText := false, problem := fixtureProblem,
    state := TowerState.dynamic, frozenVisual := false, platformSurfaceY := 400 }

/-- A mid-play state with the three-ball tower. -/
def threeBallState : GameState :=
  { baseState with
    towerTargets := [threeBallTower]
    hasLaunched := true
    launchTimeMs := some 0
    catapultProblem := none }

/-- Oracles under which only balls 100 and 101 touch the floor (handle 0). -/
def twoDownOracles : Oracles :=
  { contactPair := fun a b =>
      (decide (a = 100) && decide (b = 0)) || (decide (a = 101) && decide (b = 0))
    checkAnswer := fun _ _ => false
    generateProblem := fun _ => fixtureProblemB
    launchVelocity := fun _ _ => (0, 0) }

/-- Oracles under which all three balls touch the floor. -/
def threeDownOracles : Oracles :=
  { twoDownOracles with
    contactPair := fun a b =>
      (decide (a = 100) && decide (b = 0)) || (decide (a = 101) && decide (b = 0)) ||
        (decide (a = 102) && decide (b = 0)) }

lemma ball_stays_up_arith :
    (¬(FLOOR_Y - (200 : ℚ) ≤ 20 + 2)) ∧ (¬((200 : ℚ) ≥ 400 + PLATFORM_HEIGHT)) := by
  norm_num [FLOOR_Y, PLATFORM_HEIGHT]

/-- A default ball used as the `List.getD` fallback. -/
def blankBall : TowerBall :=
  { bodyHandle := 0, centerY := 0, radius := 0, isDown := false, hasBeenHit := false }

/-- C5 witness: in `threeBallState` under `twoDownOracles`, ball 100 (floor
contact) is marked down and ball 102 (no signal: no contact, far from the
floor, above the platform) is not. -/
theorem ballDown_three_signals_monotone_witness :
    threeBallState.levelComplete = false ∧
    (((checkLevelCompletion twoDownOracles threeBallState).towerTargets.getD 0
        blankTower).balls.getD 0 blankBall).isDown = true ∧
    (((checkLevelCompletion twoDownOracles threeBallState).towerTargets.getD 0
        blankTower).balls.getD 2 blankBall).isDown = false := by
  have h := (ballDown_three_signals_monotone twoDownOracles threeBallState).2 rfl
  have hT := checkLevelCompletion_towerTargets twoDownOracles threeBallState rfl
  have hd1 : decide (FLOOR_Y - (200 : ℚ) ≤ 20 + 2) = false := by
    rw [decide_eq_false_iff_not]
    norm_num [FLOOR_Y]
  have hd2 : decide ((200 : ℚ) ≥ 400 + PLATFORM_HEIGHT) = false := by
    rw [decide_eq_false_iff_not]
    norm_num [PLATFORM_HEIGHT]
  refine ⟨rfl, ?_, ?_⟩
  · rw [hT]
    rfl
  · rw [hT]
    simp [markBallsDown, threeBallState, threeBallTower, baseState,
      isTowerBallDown, twoDownOracles, hd1, hd2]
    rw [if_neg (by norm_num [FLOOR_Y, PLATFORM_HEIGHT])]

/-! ## C6: level completion exactly when every ball is down, at most once -/

/-- C6.  `checkLevelCompletion` is the identity once the level is already
complete (so completion can fire at most once per attempt), and after the
tick the level is complete exactly when it already was, or the post-marking
ball counts satisfy: total > 0 and the number of down balls equals the
total. -/
theorem completion_exactly_when_all_down (o : Oracles) (s : GameState) :
    (s.levelComplete = true → checkLevelCompletion o s = s) ∧
    ((checkLevelCompletion o s).levelComplete = true ↔
      (s.levelComplete = true ∨
        (0 < ((markBallsDown o s).map fun t => t.balls.length).sum ∧
          ((markBallsDown o s).map fun t =>
              (t.balls.filter fun b => b.isDown).length).sum =
            ((markBallsDown o s).map fun t => t.balls.length).sum))) := by
  refine ⟨checkLevelCompletion_of_complete o s, ?_⟩
  cases hC : s.levelComplete with
  | true =>
      rw [checkLevelCompletion_of_complete o s hC]
      simp [hC]
  | false =>
      simp only [checkLevelCompletion]
      rw [if_neg (by rw [hC]; simp)]
      by_cases hcond :
          (0 < ((markBallsDown o s).map fun t => t.balls.length).sum ∧
            ((markBallsDown o s).map fun t =>
                (t.balls.filter fun b => b.isDown).length).sum =
              ((markBallsDown o s).map fun t => t.balls.length).sum)
      · rw [if_pos (by
          rw [Bool.and_eq_true, decide_eq_true_eq, decide_eq_true_eq]
          exact ⟨hcond.1, hcond.2⟩)]
        simp [completeLevel, hcond]
      · rw [if_neg (by
          rw [Bool.and_eq_true, decide_eq_true_eq, decide_eq_true_eq]
          rintro ⟨h1, h2⟩
          exact hcond ⟨h1, h2⟩)]
        simp [hC, hcond]

/-- C6 witness — the 3-ball scenario: with only two balls in floor contact,
completion does not trigger; with the third also down it triggers, and
running the pass again on the completed state changes nothing (completion
fires exactly once). -/
theorem completion_exactly_when_all_down_witness :
    (checkLevelCompletion twoDownOracles threeBallState).levelComplete = false ∧
    (checkLevelCompletion threeDownOracles threeBallState).levelComplete = true ∧
    checkLevelCompletion threeDownOracles
        (checkLevelCompletion threeDownOracles threeBallState) =
      checkLevelCompletion threeDownOracles threeBallState := by
  have hd1 : decide (FLOOR_Y - (200 : ℚ) ≤ 20 + 2) = false := by
    rw [decide_eq_false_iff_not]
    norm_num [FLOOR_Y]
  have hd2 : decide ((200 : ℚ) ≥ 400 + PLATFORM_HEIGHT) = false := by
    rw [decide_eq_false_iff_not]
    norm_num [PLATFORM_HEIGHT]
  have hcounts2 :
      ((markBallsDown twoDownOracles threeBallState).map fun t =>
          (t.balls.filter fun b => b.isDown).length).sum = 2 := by
    simp [markBallsDown, threeBallState, threeBallTower, baseState,
      isTowerBallDown, twoDownOracles, hd1, hd2]
    rw [if_neg (by norm_num [FLOOR_Y, PLATFORM_HEIGHT])]
  have htot2 :
      ((markBallsDown twoDownOracles threeBallState).map fun t =>
          t.balls.length).sum = 3 := by
    simp [markBallsDown, threeBallState, threeBallTower, baseState]
  have h2 : (checkLevelCompletion twoDownOracles threeBallState).levelComplete = false := by
    have hiff := (completion_exactly_when_all_down twoDownOracles threeBallState).2
    rw [hcounts2, htot2] at hiff
    rw [Bool.eq_false_iff]
    rw [Ne, hiff]
    rintro (hfalse | ⟨_, hne⟩)
    · exact absurd hfalse (by decide)
    · exact absurd hne (by norm_num)
  have h3 : (checkLevelCompletion threeDownOracles threeBallState).levelComplete = true := by
    have hiff := (completion_exactly_when_all_down threeDownOracles threeBallState).2
    rw [hiff]
    refine Or.inr ⟨?_, ?_⟩
    · simp [markBallsDown, threeBallState, threeBallTower, baseState]
    · simp [markBallsDown, threeBallState, threeBallTower, baseState,
        isTowerBallDown, threeDownOracles, twoDownOracles]
  exact ⟨h2, h3,
    (completion_exactly_when_all_down threeDownOracles
      (checkLevelCompletion threeDownOracles threeBallState)).1 h3⟩

/-! ## C7: ground-hit scoring -/

/-- A dynamic tower whose only body is a ball (as `buildTowerDefinition`
produces for a ball-only tower spec: `createBall` pushes the ball's body into
`bodies` as well as `ballBodies`). -/
def ballOnlyTower : TowerTarget :=
  { bodies := [ballBody 7],
    balls := [{ bodyHandle := 7, centerY := 780, radius := 20, isDown := false,
                hasBeenHit := false }],
    hasQuestionText := false, problem := fixtureProblem,
    state := TowerState.dynamic, frozenVisual := false, platformSurfaceY := 400 }

/-- A state holding only the ball-only tower, nothing scored yet. -/
def ballOnlyState : GameState :=
  { baseState with
    towerTargets := [ballOnlyTower]
    hasLaunched := true
    launchTimeMs := some 0
    catapultProblem := none }

/-- Oracles under which exactly collider 7 (the ball) touches the floor. -/
def ballContactOracles : Oracles :=
  { contactPair := fun a b => decide (a = 7) && decide (b = 0)
    checkAnswer := fun _ _ => false
    generateProblem := fun _ => fixtureProblemB
    launchVelocity := fun _ _ => (0, 0) }

/-- C7 counterexample: in `ballOnlyState` no structural (cuboid/plank) body
touches the floor — the only floor contact is a ball-shaped tower body — yet
`checkTowerGroundHits` still credits one score point for it.  The pass
credits every tower body, not only structural plank bodies, so the claim as
stated is false. -/
theorem ground_hit_scores_ball_body :
    ((ballOnlyState.towerTargets.flatMap fun t => t.bodies).filter fun b =>
        decide (b.shape = ShapeType.cuboid) &&
          ballContactOracles.contactPair b.handle ballOnlyState.floorHandle) = [] ∧
    ((ballOnlyState.towerTargets.flatMap fun t => t.bodies).getD 0
        (plankBody 99)).shape = ShapeType.ball ∧
    ballContactOracles.contactPair 7 ballOnlyState.floorHandle = true ∧
    (checkTowerGroundHits ballContactOracles ballOnlyState).score =
      ballOnlyState.score + 1 := by
  refine ⟨by decide, by decide, by decide, by decide⟩

lemma groundHitFold_characterization (o : Oracles) (fl : ℕ) :
    ∀ (L : List PhysBody) (score : ℕ) (scored : Finset ℕ),
      (L.foldl (groundHitStep o fl) (score, scored)).1 =
        score + ((((L.filter fun b => o.contactPair b.handle fl).map
            fun b => b.handle).toFinset) \ scored).card ∧
      (L.foldl (groundHitStep o fl) (score, scored)).2 =
        scored ∪ (((L.filter fun b => o.contactPair b.handle fl).map
            fun b => b.handle).toFinset)
  | [], score, scored => by simp
  | b :: L, score, scored => by
      rw [List.foldl_cons]
      by_cases hmem : b.handle ∈ scored
      · have hstep : groundHitStep o fl (score, scored) b = (score, scored) := by
          unfold groundHitStep
          rw [if_pos hmem]
        rw [hstep]
        obtain ⟨ih1, ih2⟩ := groundHitFold_characterization o fl L score scored
        by_cases hc : o.contactPair b.handle fl = true
        · have hfil : (b :: L).filter (fun b => o.contactPair b.handle fl) =
              b :: L.filter (fun b => o.contactPair b.handle fl) := by
            simp [List.filter_cons, hc]
          rw [hfil]
          have hset : ∀ S : Finset ℕ, insert b.handle S \ scored = S \ scored := by
            intro S
            ext x
            simp only [Finset.mem_sdiff, Finset.mem_insert]
            constructor
            · rintro ⟨hx | hx, hnx⟩
              · exact absurd (hx ▸ hmem) hnx
              · exact ⟨hx, hnx⟩
            · rintro ⟨hx, hnx⟩
              exact ⟨Or.inr hx, hnx⟩
          have huni : ∀ S : Finset ℕ, scored ∪ insert b.handle S = scored ∪ S := by
            intro S
            ext x
            simp only [Finset.mem_union, Finset.mem_insert]
            constructor
            · rintro (hx | hx | hx)
              · exact Or.inl hx
              · exact Or.inl (hx ▸ hmem)
              · exact Or.inr hx
            · rintro (hx | hx)
              · exact Or.inl hx
              · exact Or.inr (Or.inr hx)
          simp only [List.map_cons, List.toFinset_cons]
          rw [hset, huni]
          exact ⟨ih1, ih2⟩
        · have hcf : o.contactPair b.handle fl = false := by
            rwa [Bool.not_eq_true] at hc
          have hfil : (b :: L).filter (fun b => o.contactPair b.handle fl) =
              L.filter (fun b => o.contactPair b.handle fl) := by
            simp [List.filter_cons, hcf]
          rw [hfil]
          exact ⟨ih1, ih2⟩
      · by_cases hc : o.contactPair b.handle fl = true
        · have hstep : groundHitStep o fl (score, scored) b =
              (score + 1, insert b.handle scored) := by
            unfold groundHitStep
            rw [if_neg hmem, if_pos hc]
          rw [hstep]
          obtain ⟨ih1, ih2⟩ :=
            groundHitFold_characterization o fl L (score + 1) (insert b.handle scored)
          have hfil : (b :: L).filter (fun b => o.contactPair b.handle fl) =
              b :: L.filter (fun b => o.contactPair b.handle fl) := by
            simp [List.filter_cons, hc]
          rw [hfil]
          simp only [List.map_cons, List.toFinset_cons]
          constructor
          · rw [ih1]
            have hsplit : insert b.handle
                ((L.filter fun b => o.contactPair b.handle fl).map
                  (fun b => b.handle)).toFinset \ scored =
                insert b.handle
                  (((L.filter fun b => o.contactPair b.handle fl).map
                    (fun b => b.handle)).toFinset \ insert b.handle scored) := by
              ext x
              simp only [Finset.mem_sdiff, Finset.mem_insert]
              constructor
              · rintro ⟨hx | hx, hnx⟩
                · exact Or.inl hx
                · by_cases hxb : x = b.handle
                  · exact Or.inl hxb
                  · exact Or.inr ⟨hx, by rintro (h1 | h2); exact hxb h1; exact hnx h2⟩
              · rintro (hx | ⟨hx, hnx⟩)
                · exact ⟨Or.inl hx, hx ▸ hmem⟩
                · exact ⟨Or.inr hx, fun hmm => hnx (Or.inr hmm)⟩
            rw [hsplit]
            rw [Finset.card_insert_of_not_mem (by simp)]
            omega
          · rw [ih2]
            rw [Finset.union_insert, Finset.insert_union]
        · have hstep : groundHitStep o fl (score, scored) b = (score, scored) := by
            unfold groundHitStep
            rw [if_neg hmem, if_neg hc]
          rw [hstep]
          have hcf : o.contactPair b.handle fl = false := by
            rwa [Bool.not_eq_true] at hc
          have hfil : (b :: L).filter (fun b => o.contactPair b.handle fl) =
              L.filter (fun b => o.contactPair b.handle fl) := by
            simp [List.filter_cons, hcf]
          rw [hfil]
          exact groundHitFold_characterization o fl L score scored

/-- C7 amended.  The per-tick ground-hit pass credits exactly one score point
for every tower body — structural plank or ball — whose collider is in floor
contact and has not been credited before; each such collider is added to the
scored set, and colliders already in the scored set (bodies remaining in
floor contact across ticks) are never credited again. -/
theorem ground_hit_scoring_once_per_body (o : Oracles) (s : GameState) :
    (checkTowerGroundHits o s).score =
      s.score + (((((s.towerTargets.flatMap fun t => t.bodies).filter
          fun b => o.contactPair b.handle s.floorHandle).map
            fun b => b.handle).toFinset) \ s.scoredBodies).card ∧
    (checkTowerGroundHits o s).scoredBodies =
      s.scoredBodies ∪ ((((s.towerTargets.flatMap fun t => t.bodies).filter
          fun b => o.contactPair b.handle s.floorHandle).map
            fun b => b.handle).toFinset) := by
  have h := groundHitFold_characterization o s.floorHandle
    (s.towerTargets.flatMap fun t => t.bodies) s.score s.scoredBodies
  exact ⟨h.1, h.2⟩

/-- A state where the ball's collider 7 is in floor contact but has already
been credited. -/
def ballScoredState : GameState :=
  { ballOnlyState with score := 1, scoredBodies := {7} }

/-- C7 amended witness: a body that stays in floor contact after being
credited is never credited again. -/
theorem ground_hit_scoring_once_per_body_witness :
    (checkTowerGroundHits ballContactOracles ballScoredState).score =
      ballScoredState.score := by
  rw [(ground_hit_scoring_once_per_body ballContactOracles ballScoredState).1]
  decide

end CollapsableMathsTowers
